import Mathlib

/-!
Verification of the common-lib structured-logging library (TypeScript),
covering the transport abstraction, the file transport with its size/age
rotation engine, the logger facade's context inheritance, and the JSON
formatter's field merging.

Filesystem effects are modelled explicitly: a directory is an association
list from file name to file (content string and modification time), and
each fs operation of the source is a function on that state that may fail
(`Except`).  Fault injection (`Faults`) models the failure cases the
source guards with try/catch.  The log directory itself is elided (all
files live in one directory, keyed by bare file name); file size is the
content length; `Date` values are integer milliseconds.
-/

namespace CommonLib

/-- Log levels (`LogLevel` in types.ts). -/
inductive LogLevel where
  | error
  | warn
  | info
  | debug
  | trace
deriving DecidableEq, BEq

/-- The `levels` array built inside `BaseTransport.isLevelEnabled`
(most severe first). -/
def levels : List LogLevel := [.error, .warn, .info, .debug, .trace]

/-- Array.indexOf over `levels`; every level occurs, so the JS `-1` case
never arises. -/
def levelIndex (l : LogLevel) : Nat :=
  levels.findIdx (fun x => x == l)

/-- BaseTransport.isLevelEnabled: `currentLevelIndex <= minLevelIndex`. -/
def isLevelEnabled (minLevel level : LogLevel) : Bool :=
  decide (levelIndex level ≤ levelIndex minLevel)

/-- Modelled from the spec: severity as a number, for comparison with the
code's index arithmetic.  The spec's total order is
ERROR > WARN > INFO > DEBUG > TRACE, so ERROR gets the largest value. -/
def specSeverity : LogLevel → Nat
  | .trace => 0
  | .debug => 1
  | .info => 2
  | .warn => 3
  | .error => 4

/-- A log entry (`LogEntry` in types.ts).  The `Date` timestamp is
modelled by its ISO rendering, the only way formatters consume it;
`context` and `meta` are insertion-ordered string maps with opaque
(string) values; the `namespace` field is renamed `nspace` because
`namespace` is reserved in Lean. -/
structure LogEntry where
  timestamp : String
  level : LogLevel
  message : String
  context : List (String × String)
  meta : List (String × String)
  nspace : Option String
deriving DecidableEq

/-- A file on disk: its content and last-modified time (ms). -/
structure RFile where
  content : String
  mtime : Int
deriving DecidableEq

/-- A directory: an association list from file name to file. -/
abbrev FS := List (String × RFile)

/-- fs.stat (also used for existence checks): first entry with the name. -/
def statFS (fs : FS) (name : String) : Option RFile :=
  (fs.find? (fun p => p.1 == name)).map (·.2)

/-- Injected faults: which specific operations reject.  `statFail` makes
fs.stat reject for a path (the source always attaches `.catch(() => null)`
to stat, so a stat fault is observed as "no file"); `renameFail` keys by
the source path; `appendFail` makes fs.appendFile reject. -/
structure Faults where
  statFail : List String
  renameFail : List String
  unlinkFail : List String
  appendFail : Bool
deriving DecidableEq

def noFaults : Faults := ⟨[], [], [], false⟩

/-- fs.stat with the `.catch(() => null)` the source always applies. -/
def statCatch (fl : Faults) (fs : FS) (name : String) : Option RFile :=
  if fl.statFail.contains name then none else statFS fs name

/-- fs.rename: moves the file (content and mtime), silently replacing any
existing destination, as POSIX rename does; rejects if the source is
missing or the fault is injected. -/
def renameFS (fl : Faults) (fs : FS) (src dst : String) : Except String FS :=
  if fl.renameFail.contains src then .error ("rename failed: " ++ src)
  else
    match statFS fs src with
    | none => .error ("ENOENT: " ++ src)
    | some f => .ok ((fs.filter (fun p => !(p.1 == src || p.1 == dst))) ++ [(dst, f)])

/-- fs.unlink: removes the file; rejects if missing or faulted. -/
def unlinkFS (fl : Faults) (fs : FS) (name : String) : Except String FS :=
  if fl.unlinkFail.contains name then .error ("unlink failed: " ++ name)
  else if (statFS fs name).isSome then .ok (fs.filter (fun p => !(p.1 == name)))
  else .error ("ENOENT: " ++ name)

/-- fs.appendFile: creates or appends, refreshing the mtime. -/
def appendFS (fl : Faults) (fs : FS) (name data : String) (now : Int) :
    Except String FS :=
  if fl.appendFail then .error "append failed"
  else
    match statFS fs name with
    | some f =>
        .ok ((fs.filter (fun p => !(p.1 == name))) ++ [(name, ⟨f.content ++ data, now⟩)])
    | none => .ok (fs ++ [(name, ⟨data, now⟩)])

/-- fs.readdir: the directory entries, in directory order. -/
def readdirFS (fs : FS) : List String := fs.map (·.1)

/-- Rotation options with the constructor's defaults filled in
(`Required<FileTransportConfig['rotation']>`). -/
structure RotationPolicy where
  maxSize : Nat
  maxDays : Nat
  maxFiles : Nat
  compress : Bool
deriving DecidableEq

/-- The file transport's derived path state: `path.parse(filename)` gives
`basename` (the name without extension) and `extension` (with the dot).
The directory is elided, see the module docstring. -/
structure FileConfig where
  basename : String
  extension : String
  rotation : RotationPolicy
deriving DecidableEq

/-- The active file's name, `this.filename` relative to its directory. -/
def FileConfig.filename (c : FileConfig) : String := c.basename ++ c.extension

/-- Strips a required character prefix, or fails. -/
def stripPrefixChars : List Char → List Char → Option (List Char)
  | [], l => some l
  | _, [] => none
  | p :: ps, x :: xs => if x = p then stripPrefixChars ps xs else none

/-- parseInt on a `\d+` capture: one or more digits, base 10. -/
def parseDigits (l : List Char) : Option Nat :=
  if l.isEmpty then none
  else if l.all (fun ch => ch.isDigit) then
    some (l.foldl (fun acc ch => acc * 10 + (ch.toNat - 48)) 0)
  else none

/-- The rotation name pattern: the source tests
`new RegExp(basename + "\\.(\\d+)" + extension)` against each directory
entry and parses the capture.  The regex is unanchored in the source; on
the canonical names the transport itself produces (basename, a dot, the
digits, the extension, nothing else) the unanchored test coincides with
this anchored decomposition, which is what is modelled. -/
def matchRotated (c : FileConfig) (file : String) : Option Nat :=
  match stripPrefixChars (c.basename.data ++ ['.']) file.data with
  | none => none
  | some rest =>
    let extLen := c.extension.data.length
    if extLen ≤ rest.length && rest.drop (rest.length - extLen) = c.extension.data then
      parseDigits (rest.take (rest.length - extLen))
    else none

/-- FileTransport.getExistingRotatedFiles: directory entries matching the
rotation pattern, in directory order.  (Its readdir-failure branch, which
reports and returns `[]`, is not modelled: readdir is total here.) -/
def getExistingRotatedFiles (c : FileConfig) (fs : FS) : List String :=
  (readdirFS fs).filter (fun f => (matchRotated c f).isSome)

/-- Lexicographic comparison of char lists by code point, the JS default
sort comparator restricted to the ASCII names at issue. -/
def charsLe : List Char → List Char → Bool
  | [], _ => true
  | _ :: _, [] => false
  | a :: as, b :: bs => if a = b then charsLe as bs else decide (a < b)

def strLe (a b : String) : Bool := charsLe a.data b.data

/-- Insertion step of the sort. -/
def insertAsc (x : String) : List String → List String
  | [] => [x]
  | y :: ys => if strLe x y then x :: y :: ys else y :: insertAsc x ys

/-- Array.prototype.sort with the default comparator: ascending
lexicographic order (insertion sort; only the resulting order is
specified by JS). -/
def sortAsc : List String → List String
  | [] => []
  | x :: xs => insertAsc x (sortAsc xs)

/-- One iteration of the rotation loop body: skip non-matching names
(`continue`), delete when the incremented index would exceed maxFiles,
otherwise rename to the incremented index. -/
def rotateStep (fl : Faults) (c : FileConfig) (fs : FS) (file : String) :
    Except String FS :=
  match matchRotated c file with
  | none => .ok fs
  | some index =>
    let newIndex := index + 1
    if c.rotation.maxFiles < newIndex then
      unlinkFS fl fs file
    else
      renameFS fl fs file (c.basename ++ "." ++ toString newIndex ++ c.extension)

/-- The rotation loop over a list of directory entries.  A rejected
rename/unlink is not caught per file: it aborts the remaining iterations
and carries the filesystem state at the throw point out to rotate's
single catch. -/
def rotateLoop (fl : Faults) (c : FileConfig) :
    List String → FS → FS × Option String
  | [], fs => (fs, none)
  | f :: rest, fs =>
    match rotateStep fl c fs f with
    | .ok fs' => rotateLoop fl c rest fs'
    | .error e => (fs, some e)

/-- The index-shifting phase of rotate: `files.sort().reverse()` leaves
the entries in descending order, and the loop
`for (let i = files.length - 1; i >= 0; i--)` then visits that array from
its last element to its first — i.e. in `files.reverse` order. -/
def rotateShift (fl : Faults) (c : FileConfig) (fs : FS) : FS × Option String :=
  let files := (sortAsc (getExistingRotatedFiles c fs)).reverse
  rotateLoop fl c files.reverse fs

/-- The loop of deleteOldFiles: each file is statted with
`.catch(() => null)` (a stat failure only skips that file), and files
strictly older than maxAgeMs are unlinked; a rejected unlink aborts the
remaining iterations of this loop only. -/
def deleteOldLoop (fl : Faults) (now maxAgeMs : Int) :
    List String → FS → FS × Option String
  | [], fs => (fs, none)
  | f :: rest, fs =>
    match statCatch fl fs f with
    | none => deleteOldLoop fl now maxAgeMs rest fs
    | some st =>
      if maxAgeMs < now - st.mtime then
        match unlinkFS fl fs f with
        | .ok fs' => deleteOldLoop fl now maxAgeMs rest fs'
        | .error e => (fs, some e)
      else deleteOldLoop fl now maxAgeMs rest fs

/-- FileTransport.deleteOldFiles: prune rotated files older than maxDays.
Its try/catch converts a raised error into a `console.error` report (the
returned message) instead of propagating it to rotate. -/
def deleteOldFiles (fl : Faults) (c : FileConfig) (now : Int) (fs : FS) :
    FS × Option String :=
  let maxAgeMs : Int := (c.rotation.maxDays * (24 * 60 * 60 * 1000) : Nat)
  match deleteOldLoop fl now maxAgeMs (getExistingRotatedFiles c fs) fs with
  | (fs', none) => (fs', none)
  | (fs', some e) => (fs', some ("Failed to delete old log files: " ++ e))

/-- Modelled from the spec: the effect of the age-pruning pass on one
name's stat result, given whether the name is in the pruned set — a file
is deleted exactly when it is in the set and strictly older than
maxAgeMs.  Used to state what deleteOldFiles computes. -/
def pruneSpec (inSet : Bool) (now maxAgeMs : Int) : Option RFile → Option RFile
  | none => none
  | some st => if inSet && decide (maxAgeMs < now - st.mtime) then none else some st

/-- The body of rotate's try block.  Returns the final filesystem, the
diagnostics emitted inside the block (deleteOldFiles reports its own
failures without throwing), and the error that escaped to rotate's catch,
if any.  The early abort when the active file no longer exists is a clean
return. -/
def rotateTry (fl : Faults) (c : FileConfig) (now : Int) (fs : FS) :
    FS × List String × Option String :=
  match statCatch fl fs c.filename with
  | none => (fs, [], none)
  | some _ =>
    match rotateShift fl c fs with
    | (fs1, some e) => (fs1, [], some e)
    | (fs1, none) =>
      match renameFS fl fs1 c.filename (c.basename ++ ".1" ++ c.extension) with
      | .error e => (fs1, [], some e)
      | .ok fs2 =>
        if 0 < c.rotation.maxDays then
          match deleteOldFiles fl c now fs2 with
          | (fs3, some m) => (fs3, [m], none)
          | (fs3, none) => (fs3, [], none)
        else (fs2, [], none)

/-- Transport state: the filesystem, the rotation re-entrancy flag, the
diagnostic side-channel (`console.error` lines, in order), and the
initialization state (flag, whether a flush timer is live, how many
timers were ever started, how many mkdir calls were made). -/
structure TState where
  fs : FS
  rotating : Bool
  diag : List String
  initialized : Bool
  activeTimer : Bool
  timersStarted : Nat
  mkdirCalls : Nat
deriving DecidableEq

/-- FileTransport.rotate: no-op while a rotation is in flight; otherwise
sets `rotating`, runs the try block, reports a thrown error via
`console.error` in the catch, and clears `rotating` in the finally. -/
def rotate (fl : Faults) (c : FileConfig) (now : Int) (s : TState) : TState :=
  if s.rotating then s
  else
    match rotateTry fl c now s.fs with
    | (fs', ds, none) =>
        { s with fs := fs', diag := s.diag ++ ds, rotating := false }
    | (fs', ds, some e) =>
        { s with fs := fs',
                 diag := s.diag ++ ds ++ ["Failed to rotate log file: " ++ e],
                 rotating := false }

/-- FileTransport.checkRotation: no-op while rotating; otherwise stat the
active file (missing means no rotation) and rotate once the size reaches
maxSize.  The returned Bool records whether rotate() was invoked. -/
def checkRotation (fl : Faults) (c : FileConfig) (now : Int) (s : TState) :
    TState × Bool :=
  if s.rotating then (s, false)
  else
    match statCatch fl s.fs c.filename with
    | none => (s, false)
    | some st =>
      if c.rotation.maxSize ≤ st.content.length then (rotate fl c now s, true)
      else (s, false)

/-- os.EOL (the platform line separator). -/
def eol : String := "\n"

/-- BaseTransport.startBufferFlushTimer: clears any live timer and starts
a fresh one (so at most one is ever live, while the start count records
every call). -/
def startBufferFlushTimer (s : TState) : TState :=
  { s with activeTimer := true, timersStarted := s.timersStarted + 1 }

/-- BaseTransport.initialize: a no-op when already initialized; otherwise
starts the flush timer when buffering and sets the flag. -/
def baseInit (buffering : Bool) (s : TState) : TState :=
  if s.initialized then s
  else
    let s1 := if buffering then startBufferFlushTimer s else s
    { s1 with initialized := true }

/-- FileTransport.initialize: a no-op when already initialized; otherwise
creates the directory (recursive mkdir, already-exists tolerated; the
model's single directory always succeeds) and defers to the base class. -/
def fileInit (buffering : Bool) (s : TState) : TState :=
  if s.initialized then s
  else baseInit buffering { s with mkdirCalls := s.mkdirCalls + 1 }

/-- FileTransport.ensureInitialized. -/
def ensureInit (buffering : Bool) (s : TState) : TState :=
  if !s.initialized then fileInit buffering s else s

/-- FileTransport.write: format the entry, ensure initialization, check
rotation, append; the try/catch turns any append rejection into a
`console.error` report instead of raising to the caller. -/
def write (fl : Faults) (c : FileConfig) (buffering : Bool) (now : Int)
    (format : LogEntry → String) (entry : LogEntry) (s : TState) : TState :=
  let formatted := format entry ++ eol
  let s1 := ensureInit buffering s
  let s2 := (checkRotation fl c now s1).1
  match appendFS fl s2.fs c.filename formatted now with
  | .ok fs' => { s2 with fs := fs' }
  | .error e => { s2 with diag := s2.diag ++ ["Failed to write to log file: " ++ e] }

/-- FileTransport.writeMany: early return on an empty batch, otherwise
one joined append under the same try/catch as write. -/
def writeMany (fl : Faults) (c : FileConfig) (buffering : Bool) (now : Int)
    (format : LogEntry → String) (entries : List LogEntry) (s : TState) : TState :=
  if entries.length = 0 then s
  else
    let formatted := String.intercalate eol (entries.map format) ++ eol
    let s1 := ensureInit buffering s
    let s2 := (checkRotation fl c now s1).1
    match appendFS fl s2.fs c.filename formatted now with
    | .ok fs' => { s2 with fs := fs' }
    | .error e => { s2 with diag := s2.diag ++ ["Failed to write to log file: " ++ e] }

/-- Lookup in an insertion-ordered string-keyed map. -/
def lookupKV {α : Type} (l : List (String × α)) (k : String) : Option α :=
  (l.find? (fun p => p.1 == k)).map (·.2)

/-- JS object spread `{ ...a, ...b }`: a's keys keep their positions with
b's value winning on collision, and b's new keys are appended. -/
def spreadMerge {α : Type} (a b : List (String × α)) : List (String × α) :=
  (a.map (fun p =>
    match lookupKV b p.1 with
    | some v => (p.1, v)
    | none => p))
  ++ b.filter (fun p => (lookupKV a p.1).isNone)

/-- CommonLogger's state (logger.ts).  Transports are shared by
reference; they are modelled as opaque handles.  `namespace` is renamed
`nspace` (reserved word). -/
structure CommonLogger where
  minLevel : LogLevel
  defaultContext : List (String × String)
  transports : List Nat
  transforms : List (LogEntry → LogEntry)
  nspace : Option String

/-- CommonLogger.withContext: a child logger with the spread-merged
default context; the constructor leaves the namespace unset and
`if (this.namespace)` copies it only when truthy (so an empty-string
namespace is not copied). -/
def withContext (lg : CommonLogger) (context : List (String × String)) :
    CommonLogger :=
  let child : CommonLogger :=
    { minLevel := lg.minLevel
      defaultContext := spreadMerge lg.defaultContext context
      transports := lg.transports
      transforms := lg.transforms
      nspace := none }
  match lg.nspace with
  | some s => if s = "" then child else { child with nspace := some s }
  | none => child

/-- JSON values as they appear in the formatter's log object: rendered
strings, the level, or a nested string map (context/meta). -/
inductive JVal where
  | s : String → JVal
  | lvl : LogLevel → JVal
  | obj : List (String × String) → JVal
deriving DecidableEq

/-- JsonFormatter options after the constructor's defaulting. -/
structure JsonOptions where
  prettyPrint : Bool
  additionalFields : List (String × JVal)
deriving DecidableEq

/-- The object literal JsonFormatter.format builds before stringifying:
timestamp/level/message, then namespace when truthy, then context and
meta when non-empty, then the spread of additionalFields.  The
entry-derived keys are pairwise distinct, so their successive spreads are
plain appends; additionalFields is merged last with full override. -/
def jsonLogObject (opts : JsonOptions) (e : LogEntry) : List (String × JVal) :=
  spreadMerge
    ([("timestamp", JVal.s e.timestamp), ("level", JVal.lvl e.level),
      ("message", JVal.s e.message)]
      ++ (match e.nspace with
          | some ns => if ns = "" then [] else [("namespace", JVal.s ns)]
          | none => [])
      ++ (if 0 < e.context.length then [("context", JVal.obj e.context)] else [])
      ++ (if 0 < e.meta.length then [("meta", JVal.obj e.meta)] else []))
    opts.additionalFields

/-! Concrete fixtures used by the closed theorems and witnesses. -/

/-- A rotation config: maxSize 1, age pruning off, maxFiles 3. -/
def exCfg1 : FileConfig := ⟨"app", ".log", ⟨1, 0, 3, false⟩⟩

/-- A full retained set app.1 .. app.3 plus an oversized active file. -/
def exS1 : TState :=
  ⟨[("app.log", ⟨"AAAA", 0⟩), ("app.1.log", ⟨"c1", 0⟩),
    ("app.2.log", ⟨"c2", 0⟩), ("app.3.log", ⟨"c3", 0⟩)],
   false, [], true, false, 0, 0⟩

/-- A rotation config: maxSize 1, age pruning off, maxFiles 5. -/
def exCfg2 : FileConfig := ⟨"app", ".log", ⟨1, 0, 5, false⟩⟩

/-- Faults making the rename of app.1.log reject. -/
def exFl2 : Faults := ⟨[], ["app.1.log"], [], false⟩

/-- Active file plus rotated app.1 and app.2. -/
def exS2 : TState :=
  ⟨[("app.log", ⟨"AAAA", 0⟩), ("app.1.log", ⟨"c1", 0⟩), ("app.2.log", ⟨"c2", 0⟩)],
   false, [], true, false, 0, 0⟩

/-- A state with a rotation already in flight. -/
def exS3 : TState :=
  ⟨[("app.log", ⟨"AAAA", 0⟩)], true, [], true, false, 0, 0⟩

/-- A rotation config with maxSize 5. -/
def exCfg4 : FileConfig := ⟨"app", ".log", ⟨5, 14, 10, false⟩⟩

/-- An active file of size maxSize - 1. -/
def exS4small : TState := ⟨[("app.log", ⟨"AAAA", 0⟩)], false, [], true, false, 0, 0⟩

/-- An active file of size maxSize. -/
def exS4big : TState := ⟨[("app.log", ⟨"AAAAA", 0⟩)], false, [], true, false, 0, 0⟩

/-- A rotation config: maxSize 1, maxDays 14, maxFiles 10. -/
def exCfg5 : FileConfig := ⟨"app", ".log", ⟨1, 14, 10, false⟩⟩

/-- A clock 15 days after epoch. -/
def exNow5 : Int := 15 * (24 * 60 * 60 * 1000)

/-- Active file written just now, rotated app.1.log 15 days old. -/
def exFS5 : FS := [("app.log", ⟨"x", exNow5⟩), ("app.1.log", ⟨"a", 0⟩)]

/-- exFS5 after the shifting loop (app.1.log renamed to app.2.log). -/
def exFS5a : FS := [("app.log", ⟨"x", exNow5⟩), ("app.2.log", ⟨"a", 0⟩)]

/-- exFS5a after the active file was renamed to app.1.log. -/
def exFS5b : FS := [("app.2.log", ⟨"a", 0⟩), ("app.1.log", ⟨"x", exNow5⟩)]

/-- Faults making every append reject. -/
def exFl7 : Faults := ⟨[], [], [], true⟩

/-- A sample entry. -/
def exEntry : LogEntry := ⟨"2020-01-01T00:00:00.000Z", .info, "hello", [], [], none⟩

/-- A parent logger whose namespace is the (falsy) empty string. -/
def exParent9 : CommonLogger := ⟨.info, [], [], [], some ""⟩

/-- JSON options whose additionalFields override the level key. -/
def exOpts10 : JsonOptions := ⟨false, [("level", JVal.s "forced")]⟩

/-! ## Helper lemmas -/

theorem rotate_flag (fl : Faults) (c : FileConfig) (now : Int) (s : TState)
    (h : s.rotating = false) : (rotate fl c now s).rotating = false := by
  unfold rotate
  rcases h' : rotateTry fl c now s.fs with ⟨fs', ds, e⟩
  cases e <;> simp [h, h']

theorem checkRotation_flag (fl : Faults) (c : FileConfig) (now : Int) (s : TState)
    (h : s.rotating = false) : ((checkRotation fl c now s).1).rotating = false := by
  unfold checkRotation
  rcases hst : statCatch fl s.fs c.filename with _ | st
  · simp [h, hst]
  · by_cases hle : c.rotation.maxSize ≤ st.content.length
    · simp [h, hst, hle, rotate_flag fl c now s h]
    · simp [h, hst, hle]

theorem ensureInit_rotating (b : Bool) (s : TState) :
    (ensureInit b s).rotating = s.rotating := by
  unfold ensureInit fileInit baseInit startBufferFlushTimer
  by_cases h : s.initialized <;> cases b <;> simp [h]

/-! ## Claim theorems -/

/-- C6: BaseTransport.isLevelEnabled accepts exactly the levels at least
as severe as the configured minimum under the total order
ERROR > WARN > INFO > DEBUG > TRACE: the check is true iff the entry's
severity is at least the minimum's, the minimum itself is accepted, and
the check is false iff the entry is strictly less severe. -/
theorem C6_level_gating (lmin l : LogLevel) :
    (isLevelEnabled lmin l = true ↔ specSeverity lmin ≤ specSeverity l)
    ∧ isLevelEnabled lmin lmin = true
    ∧ (isLevelEnabled lmin l = false ↔ specSeverity l < specSeverity lmin) := by
  cases lmin <;> cases l <;> decide

/-- C8: initialize() is idempotent for both the file transport and the
base transport: a second call returns the state of the first unchanged
(so no second mkdir and no second flush timer), and the initialized flag
ends true either way. -/
theorem C8_initialize_idempotent (b : Bool) (s : TState) :
    fileInit b (fileInit b s) = fileInit b s
    ∧ (fileInit b s).initialized = true
    ∧ baseInit b (baseInit b s) = baseInit b s
    ∧ (baseInit b s).initialized = true := by
  unfold fileInit baseInit startBufferFlushTimer
  by_cases h : s.initialized <;> cases b <;> simp [h]

/-- C1: evaluation of rotate at the claim's scenario (maxFiles = 3 and a
full retained set app.1.log = c1, app.2.log = c2, app.3.log = c3 under an
oversized active file).  The claim requires the post-state
app.1.log = active, app.2.log = c1, app.3.log = c2 with only c3 deleted;
the code instead iterates the descending-sorted array from its last
element — ascending index order — so app.1.log is renamed over app.2.log
before app.2.log is processed, the cascade destroys c1, c2 and c3, and
only app.1.log (the old active content) remains. -/
theorem C1_rotation_chain_code_eval :
    (rotate noFaults exCfg1 0 exS1).fs = [("app.1.log", ⟨"AAAA", 0⟩)]
    ∧ statFS (rotate noFaults exCfg1 0 exS1).fs "app.2.log" = none
    ∧ statFS (rotate noFaults exCfg1 0 exS1).fs "app.3.log" = none := by
  decide

/-- C3: the rotating flag admits at most one rotation in flight — while
it is set, checkRotation and rotate return the state unchanged (no
filesystem operation) and report no invocation; and any rotate call that
actually starts (flag clear) ends with the flag false again on every exit
path, as does checkRotation. -/
theorem C3_rotation_guard (fl : Faults) (c : FileConfig) (now : Int) (s : TState) :
    (s.rotating = true →
      rotate fl c now s = s ∧ checkRotation fl c now s = (s, false))
    ∧ (s.rotating = false →
      (rotate fl c now s).rotating = false
      ∧ ((checkRotation fl c now s).1).rotating = false) := by
  constructor
  · intro h
    constructor
    · unfold rotate; simp [h]
    · unfold checkRotation; simp [h]
  · intro h
    exact ⟨rotate_flag fl c now s h, checkRotation_flag fl c now s h⟩

/-- C3 witness: with a rotation in flight, both calls are no-ops. -/
theorem C3_rotation_guard_witness :
    rotate noFaults exCfg2 0 exS3 = exS3
    ∧ checkRotation noFaults exCfg2 0 exS3 = (exS3, false) :=
  (C3_rotation_guard noFaults exCfg2 0 exS3).1 rfl

/-- C2 (amended): a rotation-step failure is reported to the diagnostic
side-channel and the rotating flag is still cleared, but the per-file
steps are not independently fault-isolated — a rejected rename/unlink
escapes to rotate's single catch, aborting the remaining per-file steps,
the active-file rename and the age-pruning pass.  The first conjunct is
the general accounting of rotate's diagnostics and flag; the second
evaluates the abort at a concrete faulted run (rename of app.1.log
rejects): the filesystem is left exactly as it was, so app.2.log was
never shifted and the active file was never renamed. -/
theorem C2_fault_isolation_amended (fl : Faults) (c : FileConfig) (now : Int)
    (s : TState) (h : s.rotating = false) :
    ((rotate fl c now s).rotating = false
      ∧ (rotate fl c now s).diag = s.diag ++
          (match rotateTry fl c now s.fs with
           | (_, ds, none) => ds
           | (_, ds, some e) => ds ++ ["Failed to rotate log file: " ++ e]))
    ∧ ((rotate exFl2 exCfg2 0 exS2).fs = exS2.fs
      ∧ (rotate exFl2 exCfg2 0 exS2).diag
          = ["Failed to rotate log file: rename failed: app.1.log"]) := by
  refine ⟨⟨rotate_flag fl c now s h, ?_⟩, by decide⟩
  unfold rotate
  rcases h' : rotateTry fl c now s.fs with ⟨fs', ds, e⟩
  cases e <;> simp [h, h']

/-- C2 counterexample: with the rename of app.1.log rejecting, the claim
requires the remaining steps still to be attempted — app.2.log would be
renamed to app.3.log and the (unfaulted) active-file rename would remove
app.log.  The code does neither: the failure is reported, but app.log is
still present, app.3.log was never created, and app.2.log is untouched. -/
theorem C2_fault_isolation_counterexample :
    statFS (rotate exFl2 exCfg2 0 exS2).fs "app.log" = some ⟨"AAAA", 0⟩
    ∧ statFS (rotate exFl2 exCfg2 0 exS2).fs "app.2.log" = some ⟨"c2", 0⟩
    ∧ statFS (rotate exFl2 exCfg2 0 exS2).fs "app.3.log" = none
    ∧ (rotate exFl2 exCfg2 0 exS2).diag
        = ["Failed to rotate log file: rename failed: app.1.log"] := by
  decide

/-- C2 witness: the amended theorem applied to the concrete faulted run. -/
theorem C2_fault_isolation_witness :
    (rotate exFl2 exCfg2 0 exS2).rotating = false :=
  ((C2_fault_isolation_amended exFl2 exCfg2 0 exS2 rfl).1).1

/-- C4: with no rotation in flight, checkRotation invokes rotate iff the
active file exists and its size is at least maxSize; in particular a file
of exactly maxSize - 1 bytes does not trigger, and a missing active file
never triggers. -/
theorem C4_rotation_trigger (c : FileConfig) (now : Int) (s : TState)
    (h : s.rotating = false) :
    ((checkRotation noFaults c now s).2 = true
      ↔ ∃ st, statFS s.fs c.filename = some st
          ∧ c.rotation.maxSize ≤ st.content.length)
    ∧ (∀ st, statFS s.fs c.filename = some st →
        st.content.length + 1 = c.rotation.maxSize →
        (checkRotation noFaults c now s).2 = false)
    ∧ (statFS s.fs c.filename = none →
        (checkRotation noFaults c now s).2 = false) := by
  have hsc : statCatch noFaults s.fs c.filename = statFS s.fs c.filename := rfl
  unfold checkRotation
  rw [hsc]
  rcases hst : statFS s.fs c.filename with _ | st
  · simp [h, hst]
  · by_cases hle : c.rotation.maxSize ≤ st.content.length
    · simp [h, hst, hle]
      intro heq
      omega
    · simp [h, hst, hle]

/-- C4 witness: with maxSize 5, a 4-byte active file does not trigger while
a 5-byte one does. -/
theorem C4_rotation_trigger_witness :
    (checkRotation noFaults exCfg4 0 exS4small).2 = false
    ∧ (checkRotation noFaults exCfg4 0 exS4big).2 = true :=
  ⟨(C4_rotation_trigger exCfg4 0 exS4small rfl).2.1 ⟨"AAAA", 0⟩ (by decide) (by decide),
   (C4_rotation_trigger exCfg4 0 exS4big rfl).1.mpr ⟨⟨"AAAAA", 0⟩, by decide, by decide⟩⟩

/-- C7: when the file append rejects, write and writeMany (on a non-empty
batch) catch the failure, report it to the diagnostic side-channel and
return normally — they are total functions into the state, no error
reaches the caller — and the rotating flag is false afterwards. -/
theorem C7_append_failure (fl : Faults) (c : FileConfig) (b : Bool) (now : Int)
    (fmt : LogEntry → String) (entry : LogEntry) (entries : List LogEntry)
    (s : TState) (hA : fl.appendFail = true) (hR : s.rotating = false) :
    ((write fl c b now fmt entry s).rotating = false
      ∧ "Failed to write to log file: append failed"
          ∈ (write fl c b now fmt entry s).diag)
    ∧ (entries ≠ [] →
      (writeMany fl c b now fmt entries s).rotating = false
      ∧ "Failed to write to log file: append failed"
          ∈ (writeMany fl c b now fmt entries s).diag) := by
  have hs2 : ((checkRotation fl c now (ensureInit b s)).1).rotating = false :=
    checkRotation_flag fl c now (ensureInit b s)
      (by rw [ensureInit_rotating]; exact hR)
  constructor
  · unfold write
    simp only [appendFS, hA, if_true]
    refine ⟨by simpa using hs2, ?_⟩
    exact List.mem_append.mpr (Or.inr (List.mem_singleton.mpr (by decide)))
  · intro hne
    unfold writeMany
    rw [if_neg (by simpa [List.length_eq_zero] using hne)]
    simp only [appendFS, hA, if_true]
    refine ⟨by simpa using hs2, ?_⟩
    exact List.mem_append.mpr (Or.inr (List.mem_singleton.mpr (by decide)))

/-- C7 witness: an append fault on a concrete write is reported and the
flag stays clear. -/
theorem C7_append_failure_witness :
    (write exFl7 exCfg2 false 0 (fun _ => "line") exEntry exS4small).rotating = false
    ∧ "Failed to write to log file: append failed"
        ∈ (write exFl7 exCfg2 false 0 (fun _ => "line") exEntry exS4small).diag :=
  (C7_append_failure exFl7 exCfg2 false 0 (fun _ => "line") exEntry [exEntry]
    exS4small rfl rfl).1

/-! ## Age-pruning characterization (for C5) -/

theorem statFS_erase_self (fs : FS) (n : String) :
    statFS (fs.filter (fun p => !(p.1 == n))) n = none := by
  induction fs with
  | nil => rfl
  | cons hd tl ih =>
    by_cases h : hd.1 = n
    · rw [List.filter_cons_of_neg (by simp [h])]
      exact ih
    · rw [List.filter_cons_of_pos (by simp [h])]
      unfold statFS
      rw [List.find?_cons_of_neg _ (by simp [h])]
      exact ih

theorem statFS_erase_ne (fs : FS) (n k : String) (h : k ≠ n) :
    statFS (fs.filter (fun p => !(p.1 == n))) k = statFS fs k := by
  induction fs with
  | nil => rfl
  | cons hd tl ih =>
    by_cases h1 : hd.1 = n
    · have h2 : ¬(hd.1 = k) := by rw [h1]; exact fun hh => h hh.symm
      rw [List.filter_cons_of_neg (by simp [h1])]
      unfold statFS
      rw [List.find?_cons_of_neg _ (by simp [h2])]
      exact ih
    · by_cases h2 : hd.1 = k
      · rw [List.filter_cons_of_pos (by simp [h1])]
        unfold statFS
        rw [List.find?_cons_of_pos _ (by simp [h2]),
          List.find?_cons_of_pos _ (by simp [h2])]
      · rw [List.filter_cons_of_pos (by simp [h1])]
        unfold statFS
        rw [List.find?_cons_of_neg _ (by simp [h2]),
          List.find?_cons_of_neg _ (by simp [h2])]
        exact ih

theorem statCatch_noFaults (fs : FS) (n : String) :
    statCatch noFaults fs n = statFS fs n := rfl

theorem unlinkFS_noFaults (fs : FS) (n : String)
    (h : (statFS fs n).isSome = true) :
    unlinkFS noFaults fs n = .ok (fs.filter (fun p => !(p.1 == n))) := by
  unfold unlinkFS
  simp [noFaults, h]

theorem deleteOldLoop_spec (now maxAge : Int) :
    ∀ (names : List String) (fs : FS),
      (deleteOldLoop noFaults now maxAge names fs).2 = none
      ∧ ∀ k, statFS (deleteOldLoop noFaults now maxAge names fs).1 k
          = pruneSpec (names.contains k) now maxAge (statFS fs k) := by
  intro names
  induction names with
  | nil =>
    intro fs
    refine ⟨rfl, fun k => ?_⟩
    cases hk : statFS fs k <;> simp [deleteOldLoop, pruneSpec, hk]
  | cons n rest ih =>
    intro fs
    simp only [deleteOldLoop, statCatch_noFaults]
    cases hn : statFS fs n with
    | none =>
      simp only [hn]
      obtain ⟨ih1, ih2⟩ := ih fs
      refine ⟨ih1, fun k => ?_⟩
      rw [ih2 k]
      cases hk : statFS fs k with
      | none => simp [pruneSpec]
      | some st =>
        by_cases hkn : k = n
        · subst hkn; rw [hk] at hn; cases hn
        · simp [pruneSpec, List.contains_cons, hkn]
    | some st =>
      simp only [hn]
      by_cases hold : maxAge < now - st.mtime
      · rw [if_pos hold, unlinkFS_noFaults fs n (by simp [hn])]
        simp only []
        obtain ⟨ih1, ih2⟩ := ih (fs.filter (fun p => !(p.1 == n)))
        refine ⟨ih1, fun k => ?_⟩
        rw [ih2 k]
        by_cases hkn : k = n
        · subst hkn
          rw [statFS_erase_self, hn]
          simp [pruneSpec, hold]
        · rw [statFS_erase_ne fs n k hkn]
          cases hk : statFS fs k with
          | none => simp [pruneSpec]
          | some st' => simp [pruneSpec, List.contains_cons, hkn]
      · rw [if_neg hold]
        obtain ⟨ih1, ih2⟩ := ih fs
        refine ⟨ih1, fun k => ?_⟩
        rw [ih2 k]
        by_cases hkn : k = n
        · subst hkn
          rw [hn]
          simp [pruneSpec, hold]
        · cases hk : statFS fs k with
          | none => simp [pruneSpec]
          | some st' => simp [pruneSpec, List.contains_cons, hkn]

theorem deleteOldFiles_eq (fl : Faults) (c : FileConfig) (now : Int) (fs : FS) :
    deleteOldFiles fl c now fs
      = match deleteOldLoop fl now
            ((c.rotation.maxDays * (24 * 60 * 60 * 1000) : Nat))
            (getExistingRotatedFiles c fs) fs with
        | (fs', none) => (fs', none)
        | (fs', some e) => (fs', some ("Failed to delete old log files: " ++ e)) :=
  rfl

theorem deleteOldFiles_spec (c : FileConfig) (now : Int) (fs : FS) :
    (deleteOldFiles noFaults c now fs).2 = none
    ∧ ∀ k, statFS (deleteOldFiles noFaults c now fs).1 k
        = pruneSpec ((getExistingRotatedFiles c fs).contains k) now
            ((c.rotation.maxDays * (24 * 60 * 60 * 1000) : Nat)) (statFS fs k) := by
  obtain ⟨h1, h2⟩ :=
    deleteOldLoop_spec now ((c.rotation.maxDays * (24 * 60 * 60 * 1000) : Nat))
      (getExistingRotatedFiles c fs) fs
  rcases hdl : deleteOldLoop noFaults now
      ((c.rotation.maxDays * (24 * 60 * 60 * 1000) : Nat))
      (getExistingRotatedFiles c fs) fs with ⟨fs', e⟩
  rw [hdl] at h1 h2
  simp only at h1
  subst h1
  refine ⟨?_, fun k => ?_⟩
  · rw [deleteOldFiles_eq, hdl]
  · rw [deleteOldFiles_eq, hdl]
    simpa using h2 k

theorem rotated_contains (c : FileConfig) (fs : FS) (k : String) (st : RFile)
    (h : statFS fs k = some st) :
    (getExistingRotatedFiles c fs).contains k = (matchRotated c k).isSome := by
  have hk : k ∈ readdirFS fs := by
    unfold statFS at h
    rcases hf : fs.find? (fun p => p.1 == k) with _ | p
    · rw [hf] at h; cases h
    · have hmem := List.mem_of_find?_eq_some hf
      have hpk : p.1 = k := by
        have hb := List.find?_some hf
        simpa using hb
      unfold readdirFS
      exact hpk ▸ List.mem_map_of_mem _ hmem
  unfold getExistingRotatedFiles
  cases hm : (matchRotated c k).isSome
  · simp [List.contains, List.elem_eq_mem, List.mem_filter, hm]
  · simp [List.contains, List.elem_eq_mem, List.mem_filter, hm, hk]

theorem deleteOldFiles_char (c : FileConfig) (now : Int) (fs : FS) (k : String) :
    statFS (deleteOldFiles noFaults c now fs).1 k
      = pruneSpec ((matchRotated c k).isSome) now
          ((c.rotation.maxDays * (24 * 60 * 60 * 1000) : Nat)) (statFS fs k) := by
  have h2 := (deleteOldFiles_spec c now fs).2 k
  cases hk : statFS fs k with
  | none => rw [h2, hk]; rfl
  | some st => rw [h2, hk, rotated_contains c fs k st hk]

/-- C5: with no faults, a rotation whose shifting phase and active-file
rename succeed runs the age-pruning pass immediately afterwards iff
maxDays > 0 (maxDays = 0 disables it entirely), and the pruning pass
deletes exactly the rotated-pattern files whose last-modified time is
strictly more than maxDays days (maxDays * 24h in ms) before now, leaving
every other file's stat unchanged (the pointwise pruneSpec equation). -/
theorem C5_age_pruning (c : FileConfig) (now : Int) (fs fs1 fs2 : FS) (st : RFile)
    (h1 : statCatch noFaults fs c.filename = some st)
    (h2 : rotateShift noFaults c fs = (fs1, none))
    (h3 : renameFS noFaults fs1 c.filename (c.basename ++ ".1" ++ c.extension)
        = Except.ok fs2) :
    (c.rotation.maxDays = 0 → rotateTry noFaults c now fs = (fs2, [], none))
    ∧ (0 < c.rotation.maxDays →
        rotateTry noFaults c now fs
          = ((deleteOldFiles noFaults c now fs2).1, [], none))
    ∧ ∀ k, statFS (deleteOldFiles noFaults c now fs2).1 k
        = pruneSpec ((matchRotated c k).isSome) now
            ((c.rotation.maxDays * (24 * 60 * 60 * 1000) : Nat)) (statFS fs2 k) := by
  refine ⟨?_, ?_, fun k => deleteOldFiles_char c now fs2 k⟩
  · intro h0
    unfold rotateTry
    simp [h1, h2, h3, h0]
  · intro hpos
    have hdf := (deleteOldFiles_spec c now fs2).1
    rcases hdl : deleteOldFiles noFaults c now fs2 with ⟨fs3, e⟩
    rw [hdl] at hdf
    simp only at hdf
    subst hdf
    unfold rotateTry
    simp [h1, h2, h3, hpos, hdl]

/-- C5 witness: with maxDays 14, rotating a directory whose app.1.log is
15 days old runs the pruning pass on the shifted set. -/
theorem C5_age_pruning_witness :
    rotateTry noFaults exCfg5 exNow5 exFS5
      = ((deleteOldFiles noFaults exCfg5 exNow5 exFS5b).1, [], none) :=
  (C5_age_pruning exCfg5 exNow5 exFS5 exFS5a exFS5b ⟨"x", exNow5⟩
    (by decide) (by rfl) (by rfl)).2.1 (by decide)

/-! ## Spread-merge characterization (for C9 and C10) -/

theorem lookupKV_cons_ne {α : Type} (p : String × α) (tl : List (String × α))
    (k : String) (h : ¬(p.1 = k)) :
    lookupKV (p :: tl) k = lookupKV tl k := by
  unfold lookupKV
  rw [List.find?_cons_of_neg _ (by simp [h])]

theorem lookupKV_cons_self {α : Type} (p : String × α) (tl : List (String × α)) :
    lookupKV (p :: tl) p.1 = some p.2 := by
  unfold lookupKV
  rw [List.find?_cons_of_pos _ (by simp)]
  rfl

theorem lookupKV_append {α : Type} (l1 l2 : List (String × α)) (k : String) :
    lookupKV (l1 ++ l2) k = (lookupKV l1 k).or (lookupKV l2 k) := by
  induction l1 with
  | nil => simp [lookupKV]
  | cons p tl ih =>
    by_cases h : p.1 = k
    · subst h
      rw [List.cons_append, lookupKV_cons_self, lookupKV_cons_self, Option.or_some]
    · rw [List.cons_append, lookupKV_cons_ne _ _ _ h, lookupKV_cons_ne _ _ _ h]
      exact ih

theorem lookupKV_map_override {α : Type} (b a : List (String × α)) (k : String) :
    lookupKV (a.map (fun p =>
        match lookupKV b p.1 with
        | some v => (p.1, v)
        | none => p)) k
      = ((lookupKV a k).map (fun v => (lookupKV b k).getD v)) := by
  induction a with
  | nil => simp [lookupKV]
  | cons p tl ih =>
    simp only [List.map_cons]
    by_cases h : p.1 = k
    · subst h
      rw [lookupKV_cons_self p tl]
      cases hb : lookupKV b p.1 with
      | some w => exact lookupKV_cons_self (p.1, w) _
      | none => exact lookupKV_cons_self p _
    · rw [lookupKV_cons_ne p tl k h]
      cases hb : lookupKV b p.1 with
      | some w => exact (lookupKV_cons_ne (p.1, w) _ k h).trans ih
      | none => exact (lookupKV_cons_ne p _ k h).trans ih

theorem lookupKV_filter_none {α : Type} (a b : List (String × α)) (k : String) :
    lookupKV (b.filter (fun p => (lookupKV a p.1).isNone)) k
      = if (lookupKV a k).isNone then lookupKV b k else none := by
  induction b with
  | nil => cases ha : lookupKV a k <;> simp [lookupKV, ha]
  | cons p tl ih =>
    by_cases h : p.1 = k
    · subst h
      cases ha : lookupKV a p.1 with
      | some w =>
        rw [List.filter_cons_of_neg (by simp [ha]), ih]
        simp [ha]
      | none =>
        rw [List.filter_cons_of_pos (by simp [ha]), lookupKV_cons_self,
          lookupKV_cons_self]
        simp
    · have hskip := lookupKV_cons_ne p tl k h
      cases hpa : lookupKV a p.1 with
      | some w =>
        rw [List.filter_cons_of_neg (by simp [hpa]), ih, hskip]
      | none =>
        rw [List.filter_cons_of_pos (by simp [hpa]),
          lookupKV_cons_ne _ _ k h, ih, hskip]

theorem lookupKV_spreadMerge {α : Type} (a b : List (String × α)) (k : String) :
    lookupKV (spreadMerge a b) k = (lookupKV b k).or (lookupKV a k) := by
  unfold spreadMerge
  rw [lookupKV_append, lookupKV_map_override, lookupKV_filter_none]
  cases ha : lookupKV a k <;> cases hb : lookupKV b k <;> simp

theorem withContext_defaultContext (lg : CommonLogger)
    (ctx : List (String × String)) :
    (withContext lg ctx).defaultContext = spreadMerge lg.defaultContext ctx := by
  unfold withContext
  cases lg.nspace with
  | none => rfl
  | some s => by_cases hs : s = "" <;> simp [hs]

theorem withContext_nspace (lg : CommonLogger) (ctx : List (String × String)) :
    (withContext lg ctx).nspace
      = (match lg.nspace with
         | some s => if s = "" then none else some s
         | none => none) := by
  unfold withContext
  cases lg.nspace with
  | none => rfl
  | some s => by_cases hs : s = "" <;> simp [hs]

/-- C9 (amended): withContext returns a new logger sharing the parent's
minimum level, transports and transforms, with a default context that is
the parent's merged with the argument where the argument wins on every
duplicated key (the pointwise lookup equation); the namespace is shared
unless it is the (JS-falsy) empty string, in which case the child's
namespace is left unset.  The parent record is not modified (withContext
is a pure constructor call in the model, as in the source, which only
builds a new CommonLogger). -/
theorem C9_with_context (lg : CommonLogger) (ctx : List (String × String)) :
    (withContext lg ctx).minLevel = lg.minLevel
    ∧ (withContext lg ctx).transports = lg.transports
    ∧ (withContext lg ctx).transforms = lg.transforms
    ∧ (withContext lg ctx).nspace
        = (match lg.nspace with
           | some s => if s = "" then none else some s
           | none => none)
    ∧ ∀ k, lookupKV (withContext lg ctx).defaultContext k
        = (lookupKV ctx k).or (lookupKV lg.defaultContext k) := by
  refine ⟨?_, ?_, ?_, withContext_nspace lg ctx, fun k => ?_⟩
  · unfold withContext
    cases lg.nspace with
    | none => rfl
    | some s => by_cases hs : s = "" <;> simp [hs]
  · unfold withContext
    cases lg.nspace with
    | none => rfl
    | some s => by_cases hs : s = "" <;> simp [hs]
  · unfold withContext
    cases lg.nspace with
    | none => rfl
    | some s => by_cases hs : s = "" <;> simp [hs]
  · rw [withContext_defaultContext, lookupKV_spreadMerge]

/-- C9 counterexample: a parent whose namespace is the empty string — a
falsy value, reachable via getLogger("") — yields a child whose namespace
is unset rather than shared, because withContext copies the namespace
under `if (this.namespace)`; this refutes the claim that the child always
shares the parent's namespace. -/
theorem C9_with_context_counterexample :
    (withContext exParent9 []).nspace ≠ exParent9.nspace := by
  decide

/-- C10: additionalFields are spread into the JSON log object after every
entry-derived key, so any key they define — including timestamp, level,
message, namespace, context and meta — carries the additionalFields value
in the resulting object. -/
theorem C10_json_override (opts : JsonOptions) (e : LogEntry) (k : String)
    (v : JVal) (h : lookupKV opts.additionalFields k = some v) :
    lookupKV (jsonLogObject opts e) k = some v := by
  unfold jsonLogObject
  rw [lookupKV_spreadMerge, h, Option.or_some]

/-- C10 witness: an additionalFields entry named level replaces the
entry's own level in the rendered object. -/
theorem C10_json_override_witness :
    lookupKV (jsonLogObject exOpts10 exEntry) "level" = some (JVal.s "forced") :=
  C10_json_override exOpts10 exEntry "level" (JVal.s "forced") (by rfl)

end CommonLib
